import Mathlib

/-!
Verification of the synchronization state machine of gst-sync-server's
client side (src/gst-libs/gst/sync-server/sync-client.c), as a shallow
embedding.  Machine integers (GstClockTime, i.e. guint64) are modelled as
Nat with explicit reduction modulo 2^64 where the C code can wrap.
Engine-visible side effects (state requests, seeks, base-time writes) are
recorded as an explicit trace of operations, in the order the C code
performs them.
-/

/-- Modulus of guint64 / GstClockTime arithmetic. -/
def U64 : Nat := 2 ^ 64

/-- GST_MSECOND in nanoseconds. -/
def GST_MSECOND : Nat := 1000000

/-- GST_SECOND in nanoseconds. -/
def GST_SECOND : Nat := 1000000000

/-- DEFAULT_SEEK_TOLERANCE (50 * GST_MSECOND), sync-client.c line 68. -/
def DEFAULT_SEEK_TOLERANCE : Nat := 50 * GST_MSECOND

/-- Wrapping unsigned 64-bit subtraction, as performed by
`now - self->info->base_time` on guint64 operands. -/
def usub64 (a b : Nat) : Nat := (a % U64 + (U64 - b % U64)) % U64

/-- The seek_state enum of sync-client.c (lines 28-32). -/
inductive SeekState
  | NEED_SEEK
  | IN_SEEK
  | DONE_SEEK
deriving DecidableEq, Repr

/-- The GStreamer element states relevant to sync-client.c. -/
inductive GstState
  | VOID_PENDING
  | NULL
  | READY
  | PAUSED
  | PLAYING
deriving DecidableEq, Repr

/-- Result of gst_element_set_state as classified by update_pipeline. -/
inductive GstStateChangeReturn
  | FAILURE
  | SUCCESS
  | ASYNC
  | NO_PREROLL
deriving DecidableEq, Repr

/-- GstSyncServerInfo: the sync descriptor fields used by sync-client.c. -/
structure GstSyncServerInfo where
  uri : String
  base_time : Nat
  latency : Nat
  clock_addr : String
  clock_port : Nat
deriving DecidableEq, Repr

/-- The engine (GstPipeline) surface mutated by sync-client.c: uri and
latency properties, the element start time (none models
GST_CLOCK_TIME_NONE) and the element base time. -/
structure Pipeline where
  uri : String
  latency : Nat
  start_time : Option Nat
  base_time : Nat
deriving DecidableEq, Repr

/-- Engine-visible operations issued by the client, recorded in program
order.  writeSeekState records the commit of an atomic seek_state write so
that ordering relative to engine requests is visible in the trace. -/
inductive EngineOp
  | setUri (u : String)
  | setLatency (l : Nat)
  | requestState (s : GstState)
  | seek (accurate flush : Bool) (pos : Nat)
  | setStartTimeNone
  | setBaseTime (t : Nat)
  | writeSeekState (s : SeekState)
  | warnCouldNotPlay
  | emitControlStop
deriving DecidableEq, Repr

/-- Whether an operation is a seek request. -/
def EngineOp.isSeek : EngineOp → Bool
  | .seek _ _ _ => true
  | _ => false

/-- The client state acted on by bus_cb / update_pipeline /
update_sync_info once the first descriptor has been stored (the bus watch
is only installed at that point, so self->info is non-NULL in every
handler run). -/
structure GstSyncClient where
  info : GstSyncServerInfo
  pipeline : Pipeline
  seek_state : SeekState
  synchronised : Bool
deriving DecidableEq, Repr

/-- set_base_time (sync-client.c lines 103-109): clears the element start
time (sets GST_CLOCK_TIME_NONE) and sets the element base time. -/
def set_base_time (p : Pipeline) (bt : Nat) : Pipeline × List EngineOp :=
  ({ p with start_time := none, base_time := bt },
   [.setStartTimeNone, .setBaseTime bt])

/-- update_pipeline (sync-client.c lines 112-141).  paused_result is the
return of the PAUSED state request; junk models the value of the local
gboolean is_live, which the C code leaves uninitialized on the FAILURE
path yet still reads at line 136.  The PLAYING request at line 140 is
issued unconditionally, after the seek_state write. -/
def update_pipeline (self : GstSyncClient)
    (paused_result : GstStateChangeReturn) (junk : Bool) :
    GstSyncClient × List EngineOp :=
  let p := { self.pipeline with uri := self.info.uri,
                                latency := self.info.latency }
  let is_live : Bool :=
    match paused_result with
    | .FAILURE => junk
    | .NO_PREROLL => true
    | _ => false
  let warn : List EngineOp :=
    match paused_result with
    | .FAILURE => [.warnCouldNotPlay]
    | _ => []
  let st : SeekState := if is_live then .DONE_SEEK else .NEED_SEEK
  ({ self with pipeline := p, seek_state := st },
   [.setUri self.info.uri, .setLatency self.info.latency,
    .requestState .PAUSED] ++ warn ++
   [.writeSeekState st, .requestState .PLAYING])

/-- The GST_MESSAGE_STATE_CHANGED arm of bus_cb (sync-client.c lines
179-217).  src_is_pipeline is whether GST_MESSAGE_SRC equals the client's
own pipeline; now is the value gst_clock_get_time returns; seek_accepted
is the return of gst_element_seek_simple. -/
def bus_cb_state_changed (self : GstSyncClient) (src_is_pipeline : Bool)
    (old_state new_state : GstState) (now : Nat) (seek_accepted : Bool) :
    GstSyncClient × List EngineOp :=
  if self.seek_state ≠ .NEED_SEEK ∨ src_is_pipeline = false then
    (self, [])
  else if old_state ≠ .PAUSED ∧ new_state ≠ .PLAYING then
    (self, [])
  else
    let self1 := { self with seek_state := SeekState.IN_SEEK }
    let drift := usub64 now self.info.base_time
    if drift > DEFAULT_SEEK_TOLERANCE then
      let target := (drift + DEFAULT_SEEK_TOLERANCE) % U64
      if seek_accepted then
        (self1, [.writeSeekState .IN_SEEK, .seek true true target])
      else
        let pb := set_base_time self1.pipeline self.info.base_time
        ({ self1 with pipeline := pb.1, seek_state := SeekState.DONE_SEEK },
         [.writeSeekState .IN_SEEK, .seek true true target] ++ pb.2 ++
         [.writeSeekState .DONE_SEEK])
    else
      let pb := set_base_time self1.pipeline self.info.base_time
      ({ self1 with pipeline := pb.1, seek_state := SeekState.DONE_SEEK },
       [.writeSeekState .IN_SEEK] ++ pb.2 ++ [.writeSeekState .DONE_SEEK])

/-- The GST_MESSAGE_ASYNC_DONE arm of bus_cb (sync-client.c lines
219-244).  query_pos is the result of gst_element_query_position: some
pos when the query succeeds, none when it fails. -/
def bus_cb_async_done (self : GstSyncClient) (query_pos : Option Nat) :
    GstSyncClient × List EngineOp :=
  if self.seek_state ≠ .IN_SEEK then
    (self, [])
  else
    match query_pos with
    | some pos =>
      let pb := set_base_time self.pipeline
        ((self.info.base_time + pos) % U64)
      ({ self with pipeline := pb.1, seek_state := SeekState.DONE_SEEK },
       pb.2 ++ [.writeSeekState .DONE_SEEK])
    | none =>
      ({ self with seek_state := SeekState.DONE_SEEK },
       [.writeSeekState .DONE_SEEK])

/-- The already-have-a-descriptor branch of update_sync_info
(sync-client.c lines 285-299): if uri or base_time differs, set the
pipeline to NULL, replace the stored descriptor, then re-run
update_pipeline; otherwise do nothing. -/
def update_sync_info_existing (self : GstSyncClient)
    (new_info : GstSyncServerInfo)
    (paused_result : GstStateChangeReturn) (junk : Bool) :
    GstSyncClient × List EngineOp :=
  if self.info.uri ≠ new_info.uri ∨ self.info.base_time ≠ new_info.base_time
  then
    let self1 := { self with info := new_info }
    let r := update_pipeline self1 paused_result junk
    (r.1, .requestState .NULL :: r.2)
  else
    (self, [])

/-- Kinds of bus messages relevant to the client's subscriptions. -/
inductive MessageKind
  | element
  | stateChanged
  | asyncDone
  | eos
deriving DecidableEq, Repr

/-- The two delivery channels of the engine's event bus. -/
inductive BusChannel
  | syncSignal
  | asyncWatch
deriving DecidableEq, Repr

/-- The bus subscriptions a client holds. -/
structure BusSubscriptions where
  async_watch : Bool
  sync_emission_enabled : Bool
  sync_signal_kinds : List MessageKind
deriving DecidableEq, Repr

/-- The subscriptions installed by the first-descriptor branch of
update_sync_info (sync-client.c lines 264-284): gst_bus_add_watch with
bus_cb (asynchronous, all kinds), gst_bus_enable_sync_message_emission,
and g_signal_connect on the detailed signal sync-message::async-done
(synchronous delivery for the async-done kind only). -/
def update_sync_info_first_subs : BusSubscriptions :=
  { async_watch := true
    sync_emission_enabled := true
    sync_signal_kinds := [.asyncDone] }

/-- Modelled from the spec: the dual-channel delivery discipline of the
engine's event bus (design note, section 9: the synchronous channel's
handler for a given event instance completes before that instance is also
offered to the asynchronous channel's subscribers).  The bus itself is
GStreamer code, external to this repository; this gives, per message
kind, the ordered list of channels on which a subscribed client observes
the message. -/
def delivery_order (subs : BusSubscriptions) (k : MessageKind) :
    List BusChannel :=
  (if subs.sync_emission_enabled ∧ k ∈ subs.sync_signal_kinds then
     [BusChannel.syncSignal]
   else []) ++
  (if subs.async_watch then [BusChannel.asyncWatch] else [])

/-- The resource handles held by a GstSyncClient that dispose releases:
pipeline, clock, control_addr, info, control client (sync-client.c
lines 34-51). -/
structure ClientHandles where
  pipeline : Bool
  clock : Bool
  control_addr : Bool
  info : Bool
  client : Bool
deriving DecidableEq, Repr

/-- gst_sync_client_stop (sync-client.c lines 444-448): emits the stop
signal on the control client and nothing else; no handle is released. -/
def gst_sync_client_stop (self : ClientHandles) :
    ClientHandles × List EngineOp :=
  (self, [.emitControlStop])

/-- gst_sync_client_dispose (sync-client.c lines 70-101): unrefs and
clears the pipeline, clock, control_addr, info and control client
handles. -/
def gst_sync_client_dispose (self : ClientHandles) : ClientHandles :=
  let s1 := if self.pipeline then { self with pipeline := false } else self
  let s2 := if s1.clock then { s1 with clock := false } else s1
  let s3 := { s2 with control_addr := false }
  let s4 := if s3.info then { s3 with info := false } else s3
  if s4.client then { s4 with client := false } else s4

/-- A concrete descriptor for concrete evaluations: the spec's section-8
scenarios use base_time = 1900 ms. -/
def exInfo : GstSyncServerInfo :=
  { uri := "http://example/media", base_time := 1900 * GST_MSECOND,
    latency := 0, clock_addr := "203.0.113.1", clock_port := 3000 }

/-- A concrete client holding exInfo, in NEED_SEEK, as left by
update_pipeline after a successful PAUSED request. -/
def exClient : GstSyncClient :=
  { info := exInfo
    pipeline := { uri := "http://example/media", latency := 0,
                  start_time := some 0, base_time := 0 }
    seek_state := .NEED_SEEK
    synchronised := true }

/-- A client whose descriptor base time is the maximal guint64 value, so
that a reference clock at 0 is behind the base time by almost the full
64-bit range. -/
def wrapClient : GstSyncClient :=
  { exClient with info := { exInfo with base_time := 2 ^ 64 - 1 } }

/-- Shared helper: in NEED_SEEK, on a PAUSED to PLAYING message from the
own pipeline with drift above tolerance and the seek accepted, the
handler commits IN_SEEK and issues exactly one accurate flushing seek to
drift + tolerance, leaving the pipeline untouched. -/
theorem state_changed_large_drift (self : GstSyncClient) (now : Nat)
    (h1 : self.seek_state = SeekState.NEED_SEEK)
    (h2 : DEFAULT_SEEK_TOLERANCE < usub64 now self.info.base_time) :
    bus_cb_state_changed self true .PAUSED .PLAYING now true =
      ({ self with seek_state := SeekState.IN_SEEK },
       [.writeSeekState .IN_SEEK,
        .seek true true
          ((usub64 now self.info.base_time + DEFAULT_SEEK_TOLERANCE)
            % U64)]) := by
  simp [bus_cb_state_changed, h1, h2]

/-- Claim C1: when the state-changed-to-playing handler fires in
NEED_SEEK and the computed drift (now minus descriptor base_time, in
wrapping 64-bit arithmetic) is at most the default 50 ms tolerance, the
handler sets the engine base time to exactly the descriptor base time,
clears the engine start-time reference, issues no seek, and leaves the
seek state at DONE_SEEK. -/
theorem C1_small_drift_direct (self : GstSyncClient) (now : Nat)
    (seek_accepted : Bool)
    (h1 : self.seek_state = SeekState.NEED_SEEK)
    (h2 : usub64 now self.info.base_time ≤ DEFAULT_SEEK_TOLERANCE) :
    (bus_cb_state_changed self true .PAUSED .PLAYING now
        seek_accepted).1.pipeline.base_time = self.info.base_time ∧
    (bus_cb_state_changed self true .PAUSED .PLAYING now
        seek_accepted).1.pipeline.start_time = none ∧
    (bus_cb_state_changed self true .PAUSED .PLAYING now
        seek_accepted).1.seek_state = SeekState.DONE_SEEK ∧
    ((bus_cb_state_changed self true .PAUSED .PLAYING now
        seek_accepted).2.all (fun op => !op.isSeek)) = true := by
  simp [bus_cb_state_changed, set_base_time, h1, Nat.not_lt.mpr h2,
    EngineOp.isSeek]

/-- Claim C1 witness: the spec's scenario 8 (now 1920 ms, base time
1900 ms, drift 20 ms at most the tolerance) sets base time 1900 ms
directly and ends in DONE_SEEK. -/
theorem C1_witness :
    (bus_cb_state_changed exClient true .PAUSED .PLAYING
        (1920 * GST_MSECOND) true).1.pipeline.base_time
      = exClient.info.base_time ∧
    (bus_cb_state_changed exClient true .PAUSED .PLAYING
        (1920 * GST_MSECOND) true).1.seek_state = SeekState.DONE_SEEK := by
  have h := C1_small_drift_direct exClient (1920 * GST_MSECOND) true
    (by decide) (by decide)
  exact ⟨h.1, h.2.2.1⟩

/-- Claim C2: when the handler fires in NEED_SEEK with drift above the
tolerance, it commits IN_SEEK before issuing the seek request (the
IN_SEEK write precedes the seek in the operation trace), issues an
accurate flushing seek to drift + tolerance, and, if the seek is
accepted, the state stays IN_SEEK: a further state-changed firing is a
no-op, and the state moves to DONE_SEEK exactly when the async-done
handler fires. -/
theorem C2_large_drift_seeks (self : GstSyncClient) (now : Nat)
    (h1 : self.seek_state = SeekState.NEED_SEEK)
    (h2 : DEFAULT_SEEK_TOLERANCE < usub64 now self.info.base_time) :
    bus_cb_state_changed self true .PAUSED .PLAYING now true =
      ({ self with seek_state := SeekState.IN_SEEK },
       [.writeSeekState .IN_SEEK,
        .seek true true
          ((usub64 now self.info.base_time + DEFAULT_SEEK_TOLERANCE)
            % U64)]) ∧
    (∀ src o n now2 sa,
      bus_cb_state_changed
        (bus_cb_state_changed self true .PAUSED .PLAYING now true).1
        src o n now2 sa =
      ((bus_cb_state_changed self true .PAUSED .PLAYING now true).1,
       [])) ∧
    (∀ q, (bus_cb_async_done
        (bus_cb_state_changed self true .PAUSED .PLAYING now true).1
        q).1.seek_state = SeekState.DONE_SEEK) := by
  have key := state_changed_large_drift self now h1 h2
  refine ⟨key, ?_, ?_⟩
  · intro src o n now2 sa
    rw [key]
    simp [bus_cb_state_changed]
  · intro q
    rw [key]
    cases q <;> simp [bus_cb_async_done, set_base_time]

/-- Claim C2 witness: the spec's scenario 7 (now 2050 ms, base time
1900 ms, drift 150 ms) issues an accurate flushing seek to 200 ms and
leaves the state IN_SEEK. -/
theorem C2_witness :
    bus_cb_state_changed exClient true .PAUSED .PLAYING
        (2050 * GST_MSECOND) true =
      ({ exClient with seek_state := SeekState.IN_SEEK },
       [.writeSeekState .IN_SEEK,
        .seek true true (200 * GST_MSECOND)]) := by
  have h := C2_large_drift_seeks exClient (2050 * GST_MSECOND)
    (by decide) (by decide)
  have e : (usub64 (2050 * GST_MSECOND) exClient.info.base_time
      + DEFAULT_SEEK_TOLERANCE) % U64 = 200 * GST_MSECOND := by decide
  rw [h.1, e]

/-- Claim C3: on an async-done event received in IN_SEEK, if the
position query returns P the engine base time is set to descriptor
base_time + P (with the start-time reference cleared); if the query is
unavailable the pipeline is left unchanged; in both cases the seek state
is unconditionally set to DONE_SEEK. -/
theorem C3_async_done_offsets (self : GstSyncClient) (q : Option Nat)
    (h : self.seek_state = SeekState.IN_SEEK) :
    (bus_cb_async_done self q).1.seek_state = SeekState.DONE_SEEK ∧
    (∀ pos, q = some pos →
      (bus_cb_async_done self q).1.pipeline.base_time =
          (self.info.base_time + pos) % U64 ∧
      (bus_cb_async_done self q).1.pipeline.start_time = none) ∧
    (q = none → (bus_cb_async_done self q).1.pipeline = self.pipeline) := by
  cases q <;> simp [bus_cb_async_done, set_base_time, h]

/-- Claim C3 witness: with base time 1900 ms and reported position
205 ms, the final base time is 2105 ms and the state DONE_SEEK
(scenario 7 of the spec). -/
theorem C3_witness :
    (bus_cb_async_done { exClient with seek_state := SeekState.IN_SEEK }
        (some (205 * GST_MSECOND))).1.seek_state = SeekState.DONE_SEEK ∧
    (bus_cb_async_done { exClient with seek_state := SeekState.IN_SEEK }
        (some (205 * GST_MSECOND))).1.pipeline.base_time =
      (exInfo.base_time + 205 * GST_MSECOND) % U64 := by
  have h := C3_async_done_offsets
    { exClient with seek_state := SeekState.IN_SEEK }
    (some (205 * GST_MSECOND)) rfl
  exact ⟨h.1, (h.2.1 _ rfl).1⟩

/-- Claim C4 (code bug): on a failed PAUSED request update_pipeline logs
a warning but, contrary to the claim, still requests PLAYING
unconditionally, and writes seek_state from the local is_live flag that
the C code leaves uninitialized on that path (modelled by junk), so the
resulting seek state depends on an indeterminate value instead of
staying NEED_SEEK.  The no-preroll classification (DONE_SEEK) and the
ordering of the classification write before the PLAYING request in the
non-failure case hold as claimed. -/
theorem C4_failure_path_bug (self : GstSyncClient) (junk : Bool) :
    EngineOp.requestState GstState.PLAYING ∈
      (update_pipeline self .FAILURE junk).2 ∧
    EngineOp.warnCouldNotPlay ∈ (update_pipeline self .FAILURE junk).2 ∧
    (update_pipeline self .FAILURE junk).1.seek_state =
      (if junk then SeekState.DONE_SEEK else SeekState.NEED_SEEK) ∧
    (update_pipeline self .NO_PREROLL junk).1.seek_state =
      SeekState.DONE_SEEK ∧
    (update_pipeline self .SUCCESS junk).2 =
      [.setUri self.info.uri, .setLatency self.info.latency,
       .requestState .PAUSED, .writeSeekState .NEED_SEEK,
       .requestState .PLAYING] := by
  cases junk <;> delta update_pipeline <;> simp

/-- Claim C5 counterexample: a state-changed message for the downward
transition PAUSED to READY (new state not PLAYING) from the client's own
pipeline, received in NEED_SEEK, still executes the seek-or-set-base-time
decision: the seek state advances to DONE_SEEK and the engine base time
is mutated, contradicting the claim that the decision runs only when the
new state is PLAYING. -/
theorem C5_counterexample :
    exClient.seek_state = SeekState.NEED_SEEK ∧
    exClient.pipeline.base_time = 0 ∧
    (bus_cb_state_changed exClient true .PAUSED .READY
        (1900 * GST_MSECOND) true).1.seek_state = SeekState.DONE_SEEK ∧
    (bus_cb_state_changed exClient true .PAUSED .READY
        (1900 * GST_MSECOND) true).1.pipeline.base_time =
      1900 * GST_MSECOND := by
  decide

/-- Claim C5 as amended: the guard at sync-client.c line 189 uses a
conjunction, so the decision executes exactly when the seek state is
NEED_SEEK, the message comes from the client's own pipeline, and the old
state is PAUSED or the new state is PLAYING; any other state-changed
message leaves the client unchanged and performs no engine operation. -/
theorem C5_guard_amended (self : GstSyncClient) (src : Bool)
    (old_state new_state : GstState) (now : Nat) (sa : Bool) :
    (¬(self.seek_state = SeekState.NEED_SEEK ∧ src = true ∧
        (old_state = GstState.PAUSED ∨ new_state = GstState.PLAYING)) →
      bus_cb_state_changed self src old_state new_state now sa =
        (self, [])) ∧
    ((self.seek_state = SeekState.NEED_SEEK ∧ src = true ∧
        (old_state = GstState.PAUSED ∨ new_state = GstState.PLAYING)) →
      (bus_cb_state_changed self src old_state new_state now
          sa).1.seek_state ≠ SeekState.NEED_SEEK) := by
  have hguard : ¬(self.seek_state ≠ SeekState.NEED_SEEK ∨ src = false) →
      ¬(old_state ≠ GstState.PAUSED ∧ new_state ≠ GstState.PLAYING) →
      self.seek_state = SeekState.NEED_SEEK ∧ src = true ∧
        (old_state = GstState.PAUSED ∨ new_state = GstState.PLAYING) := by
    intro h1 h2
    push_neg at h1
    refine ⟨h1.1, by simpa using h1.2, ?_⟩
    by_contra hc
    push_neg at hc
    exact h2 hc
  constructor
  · intro hn
    unfold bus_cb_state_changed
    split_ifs with h1 h2 h3 <;>
      first
        | rfl
        | exact absurd (hguard h1 h2) hn
  · intro hg
    unfold bus_cb_state_changed
    split_ifs with h1 h2 h3
    · exfalso
      rcases h1 with h | h
      · exact h hg.1
      · rw [hg.2.1] at h
        exact Bool.noConfusion h
    · exfalso
      rcases hg.2.2 with ho | hn2
      · exact h2.1 ho
      · exact h2.2 hn2
    · by_cases hd : DEFAULT_SEEK_TOLERANCE < usub64 now self.info.base_time <;>
        simp [hd]
    · by_cases hd : DEFAULT_SEEK_TOLERANCE < usub64 now self.info.base_time <;>
        simp [hd]

/-- Claim C5 amended witness: a message not from the client's own
pipeline is ignored. -/
theorem C5_guard_witness :
    bus_cb_state_changed exClient false GstState.PAUSED GstState.PLAYING
        0 true = (exClient, []) := by
  exact (C5_guard_amended exClient false GstState.PAUSED GstState.PLAYING
    0 true).1 (by decide)

/-- Claim C6: when the drift exceeds the tolerance but the seek request
is rejected, the handler falls back within the same invocation: the
engine base time is set to the descriptor base time (start time
cleared) and the final seek state is DONE_SEEK, so no reader after the
handler returns sees IN_SEEK. -/
theorem C6_seek_rejected_fallback (self : GstSyncClient) (now : Nat)
    (h1 : self.seek_state = SeekState.NEED_SEEK)
    (h2 : DEFAULT_SEEK_TOLERANCE < usub64 now self.info.base_time) :
    (bus_cb_state_changed self true .PAUSED .PLAYING now
        false).1.pipeline.base_time = self.info.base_time ∧
    (bus_cb_state_changed self true .PAUSED .PLAYING now
        false).1.pipeline.start_time = none ∧
    (bus_cb_state_changed self true .PAUSED .PLAYING now
        false).1.seek_state = SeekState.DONE_SEEK := by
  simp [bus_cb_state_changed, set_base_time, h1, h2]

/-- Claim C6 witness: the spec's scenario 9 (now 2050 ms, base time
1900 ms, seek rejected) ends with base time 1900 ms and DONE_SEEK. -/
theorem C6_witness :
    (bus_cb_state_changed exClient true .PAUSED .PLAYING
        (2050 * GST_MSECOND) false).1.pipeline.base_time =
      1900 * GST_MSECOND ∧
    (bus_cb_state_changed exClient true .PAUSED .PLAYING
        (2050 * GST_MSECOND) false).1.seek_state = SeekState.DONE_SEEK := by
  have h := C6_seek_rejected_fallback exClient (2050 * GST_MSECOND)
    (by decide) (by decide)
  exact ⟨h.1, h.2.2⟩

/-- Claim C7: a new descriptor with locator and base time both equal to
the stored descriptor's is discarded with no side effect; if either
differs, the pipeline is first driven to NULL, the stored descriptor is
replaced, and update_pipeline is re-run on the replaced descriptor, in
that order. -/
theorem C7_descriptor_diff (self : GstSyncClient)
    (ni : GstSyncServerInfo) (pr : GstStateChangeReturn) (junk : Bool) :
    (self.info.uri = ni.uri ∧ self.info.base_time = ni.base_time →
      update_sync_info_existing self ni pr junk = (self, [])) ∧
    (self.info.uri ≠ ni.uri ∨ self.info.base_time ≠ ni.base_time →
      update_sync_info_existing self ni pr junk =
        ((update_pipeline { self with info := ni } pr junk).1,
         EngineOp.requestState GstState.NULL ::
           (update_pipeline { self with info := ni } pr junk).2)) := by
  constructor
  · intro h
    unfold update_sync_info_existing
    rw [if_neg]
    push_neg
    exact ⟨h.1, h.2⟩
  · intro h
    unfold update_sync_info_existing
    rw [if_pos h]

/-- Claim C7 witness: re-sending the identical descriptor is a no-op,
while one with a changed base time first requests NULL and then re-runs
update_pipeline. -/
theorem C7_witness :
    update_sync_info_existing exClient exInfo .SUCCESS false =
      (exClient, []) ∧
    update_sync_info_existing exClient
        { exInfo with base_time := 2000 * GST_MSECOND } .SUCCESS false =
      ((update_pipeline
          { exClient with
              info := { exInfo with base_time := 2000 * GST_MSECOND } }
          .SUCCESS false).1,
       EngineOp.requestState GstState.NULL ::
         (update_pipeline
           { exClient with
               info := { exInfo with base_time := 2000 * GST_MSECOND } }
           .SUCCESS false).2) := by
  constructor
  · exact (C7_descriptor_diff exClient exInfo .SUCCESS false).1
      (by constructor <;> rfl)
  · exact (C7_descriptor_diff exClient
      { exInfo with base_time := 2000 * GST_MSECOND } .SUCCESS false).2
      (Or.inr (by decide))

/-- Claim C8 counterexample: the subscriptions installed on the first
descriptor connect the synchronous sync-message signal only for the
async-done kind, so a clock-statistics (element) message is delivered
solely through the asynchronous watch, contradicting the claim that the
statistics kind is registered for the synchronous channel. -/
theorem C8_counterexample :
    delivery_order update_sync_info_first_subs MessageKind.element =
      [BusChannel.asyncWatch] ∧
    ¬ MessageKind.element ∈
        update_sync_info_first_subs.sync_signal_kinds := by
  decide

/-- Claim C8 as amended: the first-descriptor subscription enables sync
message emission and registers exactly the async-done kind for the
synchronous channel; async-done messages are observed synchronously
before the asynchronous watch, while clock-statistics (element)
messages reach the client only via the asynchronous watch. -/
theorem C8_sync_channel_registration :
    update_sync_info_first_subs.sync_signal_kinds =
      [MessageKind.asyncDone] ∧
    delivery_order update_sync_info_first_subs MessageKind.asyncDone =
      [BusChannel.syncSignal, BusChannel.asyncWatch] ∧
    delivery_order update_sync_info_first_subs MessageKind.element =
      [BusChannel.asyncWatch] ∧
    update_sync_info_first_subs.async_watch = true ∧
    update_sync_info_first_subs.sync_emission_enabled = true := by
  decide

/-- Claim C9 counterexample: after gst_sync_client_stop on a fully
started client, the clock handle and the pipeline are still held, so
stop does not release the clock or engine resources. -/
theorem C9_counterexample :
    (gst_sync_client_stop
        { pipeline := true, clock := true, control_addr := true,
          info := true, client := true }).1.clock = true ∧
    (gst_sync_client_stop
        { pipeline := true, clock := true, control_addr := true,
          info := true, client := true }).1.pipeline = true := by
  decide

/-- Claim C9 as amended: gst_sync_client_stop only emits the stop signal
on the control client, leaving every handle unchanged (hence trivially
idempotent on the client state); the clock, pipeline and remaining
handles are released by gst_sync_client_dispose, which clears them
all. -/
theorem C9_stop_signals_dispose_releases (self : ClientHandles) :
    (gst_sync_client_stop self).1 = self ∧
    (gst_sync_client_stop self).2 = [EngineOp.emitControlStop] ∧
    gst_sync_client_stop (gst_sync_client_stop self).1 =
      gst_sync_client_stop self ∧
    gst_sync_client_dispose self =
      { pipeline := false, clock := false, control_addr := false,
        info := false, client := false } := by
  obtain ⟨p, c, a, i, cl⟩ := self
  refine ⟨rfl, rfl, rfl, ?_⟩
  cases p <;> cases c <;> cases i <;> cases cl <;> rfl

/-- Claim C10 counterexample: with now = 0 and descriptor base time
2^64 - 1 (a clock behind the base time), the wrapped drift is 1 ns, at
most the tolerance, so the handler takes the direct set-base-time branch
(DONE_SEEK, no seek), contradicting the claim that a clock behind the
base time always takes the seek branch. -/
theorem C10_counterexample :
    0 < wrapClient.info.base_time ∧
    wrapClient.seek_state = SeekState.NEED_SEEK ∧
    usub64 0 wrapClient.info.base_time = 1 ∧
    usub64 0 wrapClient.info.base_time ≤ DEFAULT_SEEK_TOLERANCE ∧
    (bus_cb_state_changed wrapClient true .PAUSED .PLAYING 0
        true).1.seek_state = SeekState.DONE_SEEK ∧
    ((bus_cb_state_changed wrapClient true .PAUSED .PLAYING 0
        true).2.all (fun op => !op.isSeek)) = true := by
  decide

/-- Claim C10 as amended: when now is behind the descriptor base time by
less than 2^64 minus the tolerance, the unsigned 64-bit subtraction
wraps to now + 2^64 - base_time, which exceeds the 50 ms tolerance, and
the handler takes the seek branch, seeking to the wrapped drift plus the
tolerance; only a clock behind by at least 2^64 - tolerance (as in the
counterexample) takes the direct branch. -/
theorem C10_wrap_behind_seeks (self : GstSyncClient) (now : Nat)
    (h1 : self.seek_state = SeekState.NEED_SEEK)
    (h2 : now < self.info.base_time)
    (h3 : self.info.base_time < U64)
    (h4 : self.info.base_time - now < U64 - DEFAULT_SEEK_TOLERANCE) :
    usub64 now self.info.base_time = now + U64 - self.info.base_time ∧
    DEFAULT_SEEK_TOLERANCE < usub64 now self.info.base_time ∧
    bus_cb_state_changed self true .PAUSED .PLAYING now true =
      ({ self with seek_state := SeekState.IN_SEEK },
       [.writeSeekState .IN_SEEK,
        .seek true true
          ((usub64 now self.info.base_time + DEFAULT_SEEK_TOLERANCE)
            % U64)]) := by
  have hU : U64 = 18446744073709551616 := by decide
  have hT : DEFAULT_SEEK_TOLERANCE = 50000000 := by decide
  have hw : usub64 now self.info.base_time =
      now + U64 - self.info.base_time := by
    unfold usub64
    rw [hU] at h3 ⊢
    rw [hT] at h4
    rw [hU] at h4
    omega
  have hgt : DEFAULT_SEEK_TOLERANCE < usub64 now self.info.base_time := by
    rw [hw, hU, hT]
    rw [hU] at h3
    rw [hT, hU] at h4
    omega
  exact ⟨hw, hgt, state_changed_large_drift self now h1 hgt⟩

/-- Claim C10 amended witness: a clock at 0 with base time 1900 ms is
behind by far less than 2^64 minus the tolerance, so the wrapped drift
exceeds the tolerance and the seek branch fires. -/
theorem C10_witness :
    bus_cb_state_changed exClient true .PAUSED .PLAYING 0 true =
      ({ exClient with seek_state := SeekState.IN_SEEK },
       [.writeSeekState .IN_SEEK,
        .seek true true
          ((usub64 0 exClient.info.base_time + DEFAULT_SEEK_TOLERANCE)
            % U64)]) := by
  exact (C10_wrap_behind_seeks exClient 0 (by decide) (by decide)
    (by decide) (by decide)).2.2
